import Mathlib

/-!
# Verification of the terminal-AI observation-and-analysis pipeline

Shallow embedding, in Lean 4, of the parts of the repository the claims
C1-C5 are about:

* `src/src/termai/ai/triggers.py` (Trigger, TriggerManager.evaluate_command),
* `src/src/termai/ai/realtime_analyzer.py` (response cache, analyze_command_error),
* `src/src/termai/ai/context_manager.py` (ContextManager.process_command, queueing),
* `src/ai/context.py` (CommandContext, ContextWindow, classify_command;
  the termai package imports a module of this name that is not shipped next to
  it, the sibling module src/ai/context.py is the implementation in the tree),
* `src/ai/filters.py` (ContextFilter, two-stage sanitization),
* `src/terminal/buffer.py` (OutputBuffer).

Python text is modelled as `List Char`; wall-clock instants (time.time())
are rationals passed explicitly; Python dicts keyed by strings are
association lists with overwrite-on-insert; asyncio interleaving is
modelled by running each coroutine atomically (the claims under study only
concern code paths without interleaving-sensitive behaviour, each of which
runs between suspension points).

Python `re.sub` passes are embedded one pattern at a time: a pass is the
generic scanner `reSub` driven by a per-pattern matcher that reproduces the
backtracking behaviour of that concrete pattern, documented at each matcher.
-/

namespace Termai

abbrev Chars := List Char

/-- Python `\s` on the ASCII range: space, tab, newline, carriage return,
vertical tab, form feed. (Lean's `Char.isWhitespace` omits \x0b and \x0c.) -/
def isPySpace (c : Char) : Bool :=
  c == ' ' || c == '\t' || c == '\n' || c == '\r' || c == '\x0b' || c == '\x0c'

/-- The regex class `[A-Za-z0-9]`. -/
def isAlnumA (c : Char) : Bool := c.isAlpha || c.isDigit

/-- Python `\w` (ASCII): letters, digits, underscore. -/
def isWordC (c : Char) : Bool := isAlnumA c || c == '_'

def toLowerL (l : Chars) : Chars := l.map Char.toLower

def toUpperL (l : Chars) : Chars := l.map Char.toUpper

/-- Case-sensitive literal at the head of `l`: `some rest` on success. -/
def dropLit : Chars → Chars → Option Chars
  | [], l => some l
  | _ :: _, [] => none
  | p :: ps, c :: cs => if c == p then dropLit ps cs else none

/-- Case-insensitive literal (the literal is given in lowercase) at the head
of `l`: `some rest` on success.  Embeds matching a regex literal compiled
with re.IGNORECASE. -/
def dropLitCi : Chars → Chars → Option Chars
  | [], l => some l
  | _ :: _, [] => none
  | p :: ps, c :: cs => if c.toLower == p then dropLitCi ps cs else none

def startsWithLit (pat l : Chars) : Bool := (dropLit pat l).isSome

/-- Python substring test `needle in hay`. -/
def containsSub (needle hay : Chars) : Bool :=
  hay.tails.any fun t => startsWithLit needle t

/-- Python `hay.endswith(tail)`. -/
def endsWithLit (tail hay : Chars) : Bool := startsWithLit tail.reverse hay.reverse

/-- Python `str.strip()`: remove leading and trailing whitespace. -/
def pyStrip (l : Chars) : Chars :=
  ((l.dropWhile isPySpace).reverse.dropWhile isPySpace).reverse

/-- Python `str.split(sep)` for a one-character separator (keeps empty parts). -/
def splitCh (sep : Char) : Chars → List Chars
  | [] => [[]]
  | c :: cs =>
    if c == sep then [] :: splitCh sep cs
    else
      match splitCh sep cs with
      | h :: t => (c :: h) :: t
      | [] => [[c]]

def splitNl : Chars → List Chars := splitCh '\n'

/-- Python `"\n".join(lines)`. -/
def joinNl : List Chars → Chars
  | [] => []
  | [l] => l
  | l :: ls => l ++ '\n' :: joinNl ls

/-- Python `str.split()` (no argument): split on whitespace runs, no empties. -/
def pySplitWsFuel : Nat → Chars → List Chars
  | 0, _ => []
  | _, [] => []
  | fuel + 1, c :: cs =>
    if isPySpace c then pySplitWsFuel fuel cs
    else
      let w := cs.takeWhile (fun x => !isPySpace x)
      (c :: w) :: pySplitWsFuel fuel (cs.drop w.length)

/-- Python `str.split()` (no argument): split on whitespace runs, no
empties.  Every step of `pySplitWsFuel` consumes at least one character,
so fuel equal to the length is enough and the fuel case is never hit. -/
def pySplitWs (l : Chars) : List Chars := pySplitWsFuel l.length l

/-!
## Generic one-pattern `re.sub` pass

`try1 prev l` inspects the suffix `l` of the subject beginning at the
current scan position (`prev` is the character just before that position,
for `\b` and multiline `^`).  It returns `some (replacement, n)` when the
pattern matches the first `n` characters of `l` (every embedded pattern
matches at least one character).  As in Python, scanning resumes right
after a matched block and advances one character otherwise.
-/

def reSubRun (try1 : Option Char → Chars → Option (Chars × Nat)) :
    Nat → Option Char → Chars → Chars
  | 0, _, l => l
  | fuel + 1, prev, l =>
    match try1 prev l with
    | some (rep, n) =>
      if 0 < n && n ≤ l.length then
        rep ++ reSubRun try1 fuel (l.take n).getLast? (l.drop n)
      else
        match l with
        | [] => []
        | c :: cs => c :: reSubRun try1 fuel (some c) cs
    | none =>
      match l with
      | [] => []
      | c :: cs => c :: reSubRun try1 fuel (some c) cs

/-- Run a pass over the whole subject.  Every step consumes at least one
character (each embedded pattern matches nonempty text), so fuel equal to
the length is enough: the fuel-exhausted case only ever sees `[]` and
returns it unchanged. -/
def reSub (try1 : Option Char → Chars → Option (Chars × Nat)) (l : Chars) : Chars :=
  reSubRun try1 l.length none l

/-- Existence-only search (`re.search`) driven by a head matcher. -/
def reSearch (tryHere : Chars → Bool) (l : Chars) : Bool :=
  l.tails.any tryHere

/-!
## ContextFilter Stage 1: the `sensitive_patterns` substitutions
(src/ai/filters.py, `ContextFilter.__init__` / `_filter_text`)

Each Python pattern compiles with re.IGNORECASE | re.DOTALL and is applied
by `re.sub` in the listed order.  The matchers below reproduce the
backtracking behaviour of each concrete pattern; the analysis of that
behaviour is given in a comment on top of each.
-/

/-- Pattern 1 `[A-Za-z0-9]{20,}` -> `[API_KEY]`: at a position the greedy
quantifier takes the maximal alphanumeric run; it matches iff the run has at
least 20 characters. -/
def tryApiKey (_ : Option Char) (l : Chars) : Option (Chars × Nat) :=
  let run := l.takeWhile isAlnumA
  if run.length ≥ 20 then some ("[API_KEY]".data, run.length) else none

/-- A pattern of the shape `tag` (case-insensitive literal, given lowercase)
followed by exactly `count` characters of class `cls`: exact-count
quantifiers `{n}` have no backtracking, so a match consumes
`tag.length + count` characters. Used for patterns 2-7
(`sk-[A-Za-z0-9]{48}`, `gh?_[A-Za-z0-9]{36}`, `AKIA[0-9A-Z]{16}`). -/
def tryTagKey (tag : Chars) (cls : Char → Bool) (count : Nat) (rep : Chars)
    (_ : Option Char) (l : Chars) : Option (Chars × Nat) :=
  match dropLitCi tag l with
  | none => none
  | some rest =>
    if (rest.take count).length == count && (rest.take count).all cls then
      some (rep, tag.length + count)
    else none

/-- `[0-9A-Z]` under re.IGNORECASE also matches lowercase letters. -/
def isAkiaCls (c : Char) : Bool := c.isDigit || c.isAlpha

/-- Pattern 8 class `[A-Za-z0-9/+=]`. -/
def isAwsCls (c : Char) : Bool := isAlnumA c || c == '/' || c == '+' || c == '='

/-- Pattern 8 `[A-Za-z0-9/+=]{40}` -> `[AWS_SECRET_KEY]`: matches iff the
next 40 characters are all in the class (exact-count, no backtracking). -/
def tryAwsSecret (_ : Option Char) (l : Chars) : Option (Chars × Nat) :=
  if (l.take 40).length == 40 && (l.take 40).all isAwsCls then
    some ("[AWS_SECRET_KEY]".data, 40)
  else none

/-- Patterns 9-11 `scheme://[^:]+:[^@]+@[^/]+/[^\s]+` -> fixed replacement.
Each greedy negated class `[^x]+` takes its maximal run, which cannot
contain the delimiter, so the delimiter consumed after it is the first
occurrence; backtracking cannot produce any other split.  The final
`[^\s]+` is the maximal non-whitespace run. -/
def tryUriCred (scheme : Chars) (rep : Chars) (_ : Option Char) (l : Chars) :
    Option (Chars × Nat) :=
  match dropLitCi (scheme ++ "://".data) l with
  | none => none
  | some r0 =>
    let s1 := r0.takeWhile (fun c => !(c == ':'))
    match s1, r0.drop s1.length with
    | _ :: _, ':' :: r1 =>
      let s2 := r1.takeWhile (fun c => !(c == '@'))
      match s2, r1.drop s2.length with
      | _ :: _, '@' :: r2 =>
        let s3 := r2.takeWhile (fun c => !(c == '/'))
        match s3, r2.drop s3.length with
        | _ :: _, '/' :: r3 =>
          let s4 := r3.takeWhile (fun c => !isPySpace c)
          if s4.length ≥ 1 then
            some (rep, scheme.length + 3 + s1.length + 1 + s2.length + 1 +
              s3.length + 1 + s4.length)
          else none
        | _, _ => none
      | _, _ => none
    | _, _ => none

/-- Class of the email local part `[a-zA-Z0-9._%+-]`. -/
def isEmailLocal (c : Char) : Bool :=
  isAlnumA c || c == '.' || c == '_' || c == '%' || c == '+' || c == '-'

/-- Class of the email domain part `[a-zA-Z0-9.-]`. -/
def isEmailDom (c : Char) : Bool := isAlnumA c || c == '.' || c == '-'

/-- Backtracking of pattern 12's domain `[a-zA-Z0-9.-]+\.[a-zA-Z]{2,}`
after the `@`: the greedy `+` first takes the maximal class run and then
yields one character at a time, so the split point `k` (length taken by the
`+`) is tried from the maximum down; at each `k` the literal dot must be
the next character and the greedy `[a-zA-Z]{2,}` then takes the maximal
letter run, needing at least 2.  Returns the total matched length in `r2`. -/
def emailTryK (r2 : Chars) : Nat → Option Nat
  | 0 => none
  | k + 1 =>
    if (r2.drop (k + 1)).head? == some '.' then
      let letters := (r2.drop (k + 2)).takeWhile Char.isAlpha
      if letters.length ≥ 2 then some (k + 2 + letters.length)
      else emailTryK r2 k
    else emailTryK r2 k

/-- Pattern 12 `([a-zA-Z0-9._%+-]+)@([a-zA-Z0-9.-]+\.[a-zA-Z]{2,})` ->
`[EMAIL]@\2`.  The local part is a maximal run of its class (the class has
no `@`, so no backtracking can move the `@`). -/
def tryEmail (_ : Option Char) (l : Chars) : Option (Chars × Nat) :=
  let g1 := l.takeWhile isEmailLocal
  if g1.length == 0 then none
  else
    match l.drop g1.length with
    | '@' :: r2 =>
      let dom := r2.takeWhile isEmailDom
      match emailTryK r2 dom.length with
      | some mlen => some ("[EMAIL]@".data ++ r2.take mlen, g1.length + 1 + mlen)
      | none => none
    | _ => none

/-- One `\d{1,3}\.` segment of pattern 13: the greedy `{1,3}` cannot stop
inside a digit run (the following literal `.` would then face a digit), so
the segment matches iff the maximal digit run has length 1..3 and is
followed by a dot.  Returns characters consumed. -/
def ipSeg (l : Chars) : Option Nat :=
  let r := (l.takeWhile Char.isDigit).length
  if 1 ≤ r && r ≤ 3 && (l.drop r).head? == some '.' then some (r + 1) else none

/-- Pattern 13 `(\d{1,3}\.\d{1,3}\.\d{1,3}\.)\d{1,3}` -> `\1[IP]`; the final
`\d{1,3}` greedily takes up to three digits of the remaining digit run. -/
def tryIp (_ : Option Char) (l : Chars) : Option (Chars × Nat) :=
  match ipSeg l with
  | none => none
  | some n1 =>
    match ipSeg (l.drop n1) with
    | none => none
    | some n2 =>
      match ipSeg (l.drop (n1 + n2)) with
      | none => none
      | some n3 =>
        let r4 := ((l.drop (n1 + n2 + n3)).takeWhile Char.isDigit).length
        if r4 ≥ 1 then
          some (l.take (n1 + n2 + n3) ++ "[IP]".data, n1 + n2 + n3 + min 3 r4)
        else none

/-- Patterns 14-15 `/home/[^/\s]+` and `/Users/[^/\s]+` (case-insensitive):
literal tag then the maximal run without `/` or whitespace, at least one
character. -/
def tryHomeDir (tag rep : Chars) (_ : Option Char) (l : Chars) :
    Option (Chars × Nat) :=
  match dropLitCi tag l with
  | none => none
  | some r =>
    let run := r.takeWhile (fun c => !(c == '/') && !isPySpace c)
    if run.length ≥ 1 then some (rep, tag.length + run.length) else none

/-- Pattern 16 `C:\\Users\\[^\\]+` -> `C:\\Users\\[USER]` (the replacement
template's doubled backslashes denote literal backslashes). -/
def tryWinUser (_ : Option Char) (l : Chars) : Option (Chars × Nat) :=
  match dropLitCi "c:\\users\\".data l with
  | none => none
  | some r =>
    let run := r.takeWhile (fun c => !(c == '\\'))
    if run.length ≥ 1 then some ("C:\\Users\\[USER]".data, 9 + run.length) else none

/-- `[A-Z ]` under re.IGNORECASE: any letter or space. -/
def isPemCls (c : Char) : Bool := c.isAlpha || c == ' '

/-- The `-----END [A-Z ]+-----` tail of pattern 17 anchored at the head of
`l`; returns its length.  As with the BEGIN part, the greedy `[A-Z ]+` run
is maximal (the class has no dash) and must be followed by five dashes. -/
def pemEnd (l : Chars) : Option Nat :=
  match dropLitCi "-----end ".data l with
  | none => none
  | some r =>
    let run := r.takeWhile isPemCls
    if run.length ≥ 1 && startsWithLit "-----".data (r.drop run.length) then
      some (9 + run.length + 5)
    else none

/-- The lazy `.*?` of pattern 17 under re.DOTALL: skip the fewest characters
(newlines included) until the END tail matches.  Returns (skipped, tail length). -/
def pemScan : Chars → Option (Nat × Nat)
  | l@(_ :: cs) =>
    match pemEnd l with
    | some n => some (0, n)
    | none => (pemScan cs).map fun p => (p.1 + 1, p.2)
  | [] =>
    match pemEnd [] with
    | some n => some (0, n)
    | none => none

/-- Pattern 17 `-----BEGIN [A-Z ]+-----.*?-----END [A-Z ]+-----` -> `[SSH_KEY]`. -/
def tryPem (_ : Option Char) (l : Chars) : Option (Chars × Nat) :=
  match dropLitCi "-----begin ".data l with
  | none => none
  | some r =>
    let run := r.takeWhile isPemCls
    if run.length ≥ 1 && startsWithLit "-----".data (r.drop run.length) then
      match pemScan (r.drop (run.length + 5)) with
      | some (skip, endn) =>
        some ("[SSH_KEY]".data, 11 + run.length + 5 + skip + endn)
      | none => none
    else none

/-- `\b` before the first character of a candidate match whose first pattern
element is `\d`: since a digit is a word character, the boundary holds iff
the preceding character is absent or not a word character. -/
def bdryBefore (prev : Option Char) : Bool :=
  match prev with
  | none => true
  | some p => !isWordC p

/-- `\b` after a match ending in a digit: the next character must be absent
or not a word character. -/
def bdryAfter (l : Chars) : Bool :=
  match l.head? with
  | none => true
  | some c => !isWordC c

/-- Exactly `n` digits at the head; returns the rest. -/
def dropDigits (n : Nat) (l : Chars) : Option Chars :=
  if (l.take n).length == n && (l.take n).all Char.isDigit then some (l.drop n)
  else none

/-- One optional separator (`cls?`): `b` tells whether this backtracking
alternative takes the separator. -/
def dropSepOpt (cls : Char → Bool) (b : Bool) (l : Chars) : Option Chars :=
  if b then
    match l with
    | c :: cs => if cls c then some cs else none
    | [] => none
  else some l

/-- Credit-card pattern 18 body for one choice of the three `[\s-]?`
alternatives; returns the rest after the final digit group. -/
def ccBody (s1 s2 s3 : Bool) (l : Chars) : Option Chars :=
  (dropDigits 4 l).bind fun l1 =>
  (dropSepOpt (fun c => isPySpace c || c == '-') s1 l1).bind fun l2 =>
  (dropDigits 4 l2).bind fun l3 =>
  (dropSepOpt (fun c => isPySpace c || c == '-') s2 l3).bind fun l4 =>
  (dropDigits 4 l4).bind fun l5 =>
  (dropSepOpt (fun c => isPySpace c || c == '-') s3 l5).bind fun l6 =>
  (dropDigits 4 l6).bind fun l7 =>
  if bdryAfter l7 then some l7 else none

/-- Pattern 18 `\b\d{4}[\s-]?\d{4}[\s-]?\d{4}[\s-]?\d{4}\b` ->
`[CREDIT_CARD]`.  Each `[\s-]?` is a binary choice point preferring to
consume; the engine flips the latest choice first, so the alternatives are
tried in the order below. -/
def tryCreditCard (prev : Option Char) (l : Chars) : Option (Chars × Nat) :=
  if bdryBefore prev then
    let combos := [(true, true, true), (true, true, false), (true, false, true),
      (true, false, false), (false, true, true), (false, true, false),
      (false, false, true), (false, false, false)]
    match combos.firstM (fun c => ccBody c.1 c.2.1 c.2.2 l) with
    | some rest => some ("[CREDIT_CARD]".data, l.length - rest.length)
    | none => none
  else none

/-- Phone pattern 19 body for one choice of the two `[-.]?` alternatives. -/
def phoneBody (s1 s2 : Bool) (l : Chars) : Option Chars :=
  (dropDigits 3 l).bind fun l1 =>
  (dropSepOpt (fun c => c == '-' || c == '.') s1 l1).bind fun l2 =>
  (dropDigits 3 l2).bind fun l3 =>
  (dropSepOpt (fun c => c == '-' || c == '.') s2 l3).bind fun l4 =>
  (dropDigits 4 l4).bind fun l5 =>
  if bdryAfter l5 then some l5 else none

/-- Pattern 19 `\b\d{3}[-.]?\d{3}[-.]?\d{4}\b` -> `[PHONE]`. -/
def tryPhone (prev : Option Char) (l : Chars) : Option (Chars × Nat) :=
  if bdryBefore prev then
    let combos := [(true, true), (true, false), (false, true), (false, false)]
    match combos.firstM (fun c => phoneBody c.1 c.2 l) with
    | some rest => some ("[PHONE]".data, l.length - rest.length)
    | none => none
  else none

/-- Pattern 20 `\b\d{3}-\d{2}-\d{4}\b` -> `[SSN]` (rigid, no choice points). -/
def trySsn (prev : Option Char) (l : Chars) : Option (Chars × Nat) :=
  if bdryBefore prev then
    match
      (dropDigits 3 l).bind fun l1 =>
      (dropSepOpt (fun c => c == '-') true l1).bind fun l2 =>
      (dropDigits 2 l2).bind fun l3 =>
      (dropSepOpt (fun c => c == '-') true l3).bind fun l4 =>
      (dropDigits 4 l4).bind fun l5 =>
      if bdryAfter l5 then some l5 else none
    with
    | some rest => some ("[SSN]".data, l.length - rest.length)
    | none => none
  else none

/-!
## ContextFilter noise patterns
(src/ai/filters.py `noise_patterns`, compiled with re.MULTILINE only)
-/

/-- Noise pattern 1 `(.)\1{50,}` (no DOTALL, so `.` is not a newline) with
replacement `m.group(1) * 10 + "[...]"`: a maximal run of one repeated
character of length at least 51. -/
def tryCharRun (_ : Option Char) (l : Chars) : Option (Chars × Nat) :=
  match l with
  | [] => none
  | c :: _ =>
    if c == '\n' then none
    else
      let run := l.takeWhile (fun x => x == c)
      if run.length ≥ 51 then
        some (List.replicate 10 c ++ "[...]".data, run.length)
      else none

/-- Class of noise pattern 2 `[\x00-\x08\x0B\x0C\x0E-\x1F\x7F-\xFF]`. -/
def isBinCls (c : Char) : Bool :=
  let n := c.toNat
  n ≤ 8 || n == 0xB || n == 0xC || (0xE ≤ n && n ≤ 0x1F) ||
    (0x7F ≤ n && n ≤ 0xFF)

/-- Noise pattern 2 `[...]{10,}` -> `[BINARY_DATA]`: maximal class run of
length at least 10. -/
def tryBinary (_ : Option Char) (l : Chars) : Option (Chars × Nat) :=
  let run := l.takeWhile isBinCls
  if run.length ≥ 10 then some ("[BINARY_DATA]".data, run.length) else none

/-- Noise pattern 3 `^.{500,}$` under re.MULTILINE with replacement
`m.group(0)[:500] + "[TRUNCATED]"`: `^` matches at the start of the string
or just after a newline; `.{500,}` greedily takes the whole line (`$` is
zero width, the newline is not consumed). -/
def tryLongLine (prev : Option Char) (l : Chars) : Option (Chars × Nat) :=
  let atBol := match prev with
    | none => true
    | some p => p == '\n'
  if atBol then
    let line := l.takeWhile (fun c => !(c == '\n'))
    if line.length ≥ 500 then
      some (line.take 500 ++ "[TRUNCATED]".data, line.length)
    else none
  else none

/-- `ContextFilter._filter_text`: the twenty sensitive-pattern passes in
source order, then the three noise passes.  Python's `if not text: return
text` short-circuits the empty string. -/
def filterText (l : Chars) : Chars :=
  if l.length == 0 then l
  else
    let passes : List (Option Char → Chars → Option (Chars × Nat)) :=
      [tryApiKey,
       tryTagKey "sk-".data isAlnumA 48 "[OPENAI_KEY]".data,
       tryTagKey "ghp_".data isAlnumA 36 "[GITHUB_TOKEN]".data,
       tryTagKey "gho_".data isAlnumA 36 "[GITHUB_OAUTH]".data,
       tryTagKey "ghu_".data isAlnumA 36 "[GITHUB_USER_TOKEN]".data,
       tryTagKey "ghs_".data isAlnumA 36 "[GITHUB_SERVER_TOKEN]".data,
       tryTagKey "akia".data isAkiaCls 16 "[AWS_ACCESS_KEY]".data,
       tryAwsSecret,
       tryUriCred "postgresql".data "postgresql://[USER]:[PASS]@[HOST]/[DB]".data,
       tryUriCred "mysql".data "mysql://[USER]:[PASS]@[HOST]/[DB]".data,
       tryUriCred "mongodb".data "mongodb://[USER]:[PASS]@[HOST]/[DB]".data,
       tryEmail,
       tryIp,
       tryHomeDir "/home/".data "/home/[USER]".data,
       tryHomeDir "/users/".data "/Users/[USER]".data,
       tryWinUser,
       tryPem,
       tryCreditCard,
       tryPhone,
       trySsn,
       tryCharRun,
       tryBinary,
       tryLongLine]
    passes.foldl (fun s t => reSub t s) l

/-!
## ContextFilter Stage 2: command-scoped output post-processing
(src/ai/filters.py `_filter_output`, `_filter_env_output`,
`_filter_process_output`, `_filter_history_output`, `_is_sensitive_file`)
-/

/-- The sensitive-name fragments checked by `_filter_env_output`. -/
def envSensitiveNames : List Chars :=
  ["PASSWORD".data, "SECRET".data, "KEY".data, "TOKEN".data, "API".data,
   "AUTH".data, "CREDENTIAL".data, "PRIVATE".data, "PASS".data]

/-- `ContextFilter._filter_env_output`: split on newlines; on each line
containing `=`, split at the first `=`; a name containing (after upper-
casing) one of the sensitive fragments keeps the name and gets value
`[FILTERED]`; otherwise the value goes through `_filter_text` once more. -/
def filterEnvOutput (l : Chars) : Chars :=
  joinNl <| (splitNl l).map fun line =>
    if line.contains '=' then
      let varName := line.takeWhile (fun c => !(c == '='))
      let varValue := (line.drop varName.length).drop 1
      if envSensitiveNames.any (fun s => containsSub s (toUpperL varName)) then
        varName ++ "=[FILTERED]".data
      else varName ++ '=' :: filterText varValue
    else line

/-- `ContextFilter._filter_process_output`: a line whose lowercase form
contains one of the `x=` markers is reduced to its first two
whitespace-separated tokens plus `[FILTERED_ARGS]`. -/
def filterProcessOutput (l : Chars) : Chars :=
  joinNl <| (splitNl l).map fun line =>
    if ["password=".data, "secret=".data, "key=".data, "token=".data,
        "auth=".data].any (fun s => containsSub s (toLowerL line)) then
      let parts := pySplitWs line
      if parts.length > 0 then
        List.intercalate [' '] (parts.take 2) ++ " [FILTERED_ARGS]".data
      else line
    else line

/-- `re.sub(r"^\s*\d+\s+", "", line)` (no MULTILINE: anchored at the start,
at most one replacement): strip a leading whitespace run, a digit run of at
least one, and a whitespace run of at least one. -/
def stripHistNum (line : Chars) : Chars :=
  let a := line.takeWhile isPySpace
  let d := (line.drop a.length).takeWhile Char.isDigit
  let w := (line.drop (a.length + d.length)).takeWhile isPySpace
  if d.length ≥ 1 && w.length ≥ 1 then line.drop (a.length + d.length + w.length)
  else line

/-- `ContextFilter._filter_history_output`. -/
def filterHistoryOutput (l : Chars) : Chars :=
  joinNl <| (splitNl l).map fun line =>
    let cleaned := stripHistNum line
    let filteredCmd := filterText cleaned
    if ["password".data, "secret".data, "key".data, "token".data, "auth".data,
        "login".data].any (fun s => containsSub s (toLowerL cleaned)) then
      "[SENSITIVE_COMMAND]".data
    else filteredCmd

/-- `ContextFilter._is_sensitive_file`. -/
def isSensitiveFile (filename : Chars) : Bool :=
  let lower := toLowerL filename
  [".key".data, ".pem".data, ".p12".data, ".pfx".data, ".crt".data,
   ".cer".data, ".env".data, ".config".data, ".conf".data, ".sql".data,
   ".db".data, ".sqlite".data, ".log".data].any (fun e => endsWithLit e lower) ||
  [".ssh".data, ".gnupg".data, ".aws".data, ".config".data, "secrets".data,
   "private".data, "confidential".data, ".env".data,
   "credentials".data].any (fun d => containsSub d lower) ||
  ["password".data, "secret".data, "key".data, "token".data,
   "credential".data, "private".data, "confidential".data, "auth".data,
   "login".data].any (fun p => containsSub p lower)

/-- `ContextFilter._filter_output`: Stage 1 on the whole output, then the
command-scoped branch keyed on the first whitespace token of the (stripped)
command, then truncation to 2000 characters.  An empty output short-
circuits (`if not output`), and an empty command skips branch and
truncation (the early `return filtered`). -/
def filterOutput (output command : Chars) : Chars :=
  if output.length == 0 then output
  else
    let filtered := filterText output
    let parts := pySplitWs (pyStrip command)
    match parts with
    | [] => filtered
    | base :: restParts =>
      let f2 :=
        if ["env".data, "printenv".data, "set".data].contains base then
          filterEnvOutput filtered
        else if ["cat".data, "less".data, "more".data, "head".data,
            "tail".data].contains base then
          match restParts with
          | filename :: _ =>
            if isSensitiveFile filename then "[SENSITIVE_FILE_CONTENT]".data
            else filtered
          | [] => filtered
        else if ["ps".data, "top".data].contains base then
          filterProcessOutput filtered
        else if base == "history".data then filterHistoryOutput filtered
        else filtered
      if f2.length > 2000 then f2.take 2000 ++ "\n[OUTPUT_TRUNCATED]".data
      else f2

/-!
## CommandType and classify_command (src/ai/context.py)
-/

inductive CommandType where
  | navigation | file_operation | text_processing | system_info | network
  | version_control | package_management | development | dangerous | other
deriving DecidableEq, Repr

/-- `classify_command` (src/ai/context.py): first match wins on the
whitespace-stripped, lowercased command. -/
def classifyCommand (command : Chars) : CommandType :=
  let c := toLowerL (pyStrip command)
  if ["rm -rf".data, "sudo rm".data, "format".data, "mkfs".data,
      "dd if=".data, "> /dev/".data].any (fun p => containsSub p c) then
    .dangerous
  else if startsWithLit "git ".data c then .version_control
  else if ["npm ".data, "yarn ".data, "pip ".data, "pip3 ".data, "apt ".data,
      "brew ".data, "yum ".data, "dnf ".data,
      "pacman ".data].any (fun p => startsWithLit p c) then .package_management
  else if ["make ".data, "cargo ".data, "python ".data, "python3 ".data,
      "node ".data, "npm run".data,
      "yarn run".data].any (fun p => startsWithLit p c) then .development
  else if ["curl ".data, "wget ".data, "ping ".data, "ssh ".data, "scp ".data,
      "rsync ".data].any (fun p => startsWithLit p c) then .network
  else if ["cp ".data, "mv ".data, "rm ".data, "mkdir ".data, "rmdir ".data,
      "chmod ".data, "chown ".data,
      "ln ".data].any (fun p => startsWithLit p c) then .file_operation
  else if ["grep ".data, "sed ".data, "awk ".data, "cat ".data, "less ".data,
      "more ".data, "head ".data, "tail ".data, "sort ".data,
      "uniq ".data].any (fun p => startsWithLit p c) then .text_processing
  else if ["ps ".data, "top ".data, "htop ".data, "df ".data, "du ".data,
      "free ".data, "uptime ".data, "who ".data,
      "w ".data].any (fun p => startsWithLit p c) then .system_info
  else if ["cd ".data, "ls ".data, "pwd".data,
      "find ".data].any (fun p => startsWithLit p c) then .navigation
  else .other

/-!
## CommandContext (src/ai/context.py)

Wall-clock values are rationals; the float constants of
`_calculate_relevance` are taken at their decimal face value.  The
dataclass `__post_init__` recomputes `relevance_score` on every
construction, including the `dataclasses.replace` in
`ContextFilter.filter_command_context`, so construction takes the current
time `now` explicitly.
-/

structure CommandContext where
  command : Chars
  directory : Chars
  timestamp : ℚ
  exit_code : ℤ
  output : Chars
  error : Chars
  duration : ℚ
  command_type : CommandType
  relevance_score : ℚ
deriving DecidableEq, Repr

/-- The `type_scores` table of `CommandContext._calculate_relevance`. -/
def typeScore : CommandType → ℚ
  | .dangerous => 95/100
  | .version_control => 8/10
  | .development => 8/10
  | .package_management => 7/10
  | .file_operation => 6/10
  | .network => 6/10
  | .text_processing => 5/10
  | .system_info => 4/10
  | .navigation => 3/10
  | .other => 4/10

/-- `CommandContext._calculate_relevance`, evaluated at wall-clock `now`. -/
def calcRelevance (now timestamp : ℚ) (exit_code : ℤ) (outputLen : Nat)
    (ty : CommandType) : ℚ :=
  let base0 : ℚ := if exit_code ≠ 0 then 9/10 else 1/2
  let base1 := max base0 (typeScore ty)
  let ageMinutes := (now - timestamp) / 60
  let base2 := if ageMinutes < 5 then base1 + (1/10) * (5 - ageMinutes) / 5 else base1
  let base3 :=
    if outputLen > 1000 then base2 + 5/100
    else if outputLen > 100 then base2 + 2/100
    else base2
  min (99/100) base3

/-- `CommandContext(...)` construction: `__post_init__` fills the score. -/
def mkCommandContext (now : ℚ) (command directory : Chars) (timestamp : ℚ)
    (exit_code : ℤ) (output error : Chars) (duration : ℚ)
    (command_type : CommandType) : CommandContext :=
  { command := command, directory := directory, timestamp := timestamp,
    exit_code := exit_code, output := output, error := error,
    duration := duration, command_type := command_type,
    relevance_score := calcRelevance now timestamp exit_code output.length command_type }

/-- `ContextFilter.filter_command_context`: filter the three text fields;
`dataclasses.replace` re-runs `__post_init__`, recomputing the score from
the filtered fields at the current time. -/
def filterCommandContext (now : ℚ) (ctx : CommandContext) : CommandContext :=
  let fc := filterText ctx.command
  let fo := filterOutput ctx.output ctx.command
  let fe := filterText ctx.error
  mkCommandContext now fc ctx.directory ctx.timestamp ctx.exit_code fo fe
    ctx.duration ctx.command_type

/-!
## Triggers (src/src/termai/ai/triggers.py)

A `Trigger`'s compiled regex is embedded as the Boolean search function
`patternMatch` (the shallow image of `self._compiled_pattern.search`); the
default triggers below each carry a matcher reproducing their concrete
pattern.  Callbacks are not modelled: a fresh `TriggerManager` has empty
callback lists, so `_log_trigger`'s callback loop is a no-op in every run
considered here.
-/

inductive TriggerType where
  | error | dangerous | pattern | manual | periodic | context
deriving DecidableEq, Repr

structure Trigger where
  name : Chars
  trigger_type : TriggerType
  priority : ℤ
  patternMatch : Option (Chars → Bool) := none
  enabled : Bool := true
  cooldown_seconds : ℤ := 0
  last_triggered : ℚ := 0

/-- `Trigger.matches`. -/
def Trigger.matchesText (t : Trigger) (text : Chars) : Bool :=
  if !t.enabled then false
  else
    match t.patternMatch with
    | none => false
    | some f => f text

/-- `Trigger.can_trigger` at wall-clock `now`. -/
def Trigger.canTrigger (t : Trigger) (now : ℚ) : Bool :=
  if !t.enabled then false
  else if t.cooldown_seconds ≤ 0 then true
  else decide ((now - t.last_triggered) ≥ (t.cooldown_seconds : ℚ))

/-- `Trigger.trigger()`: stamp the last-fired time. -/
def Trigger.fire (t : Trigger) (now : ℚ) : Trigger :=
  { t with last_triggered := now }

/-!
### Matchers for the default trigger patterns

Trigger patterns compile with re.IGNORECASE | re.MULTILINE.  None of the
default patterns uses `^`/`$`, so MULTILINE is inert; `.*` (no DOTALL)
cannot cross a newline, while `\s` can.  A token-sequence matcher covers
every default pattern.
-/

inductive Tok where
  | lit (s : Chars)       -- case-insensitive literal, given lowercase
  | ws1                   -- \s+ (greedy; the following token never starts with whitespace)
  | ws0                   -- \s*
  | cls1 (p : Char → Bool) -- a one-character class

def matchToks : List Tok → Chars → Option Chars
  | [], l => some l
  | .lit s :: ts, l => (dropLitCi s l).bind (matchToks ts)
  | .ws1 :: ts, l =>
    let w := l.takeWhile isPySpace
    if w.length ≥ 1 then matchToks ts (l.drop w.length) else none
  | .ws0 :: ts, l => matchToks ts (l.dropWhile isPySpace)
  | .cls1 p :: ts, l =>
    match l with
    | c :: cs => if p c then matchToks ts cs else none
    | [] => none

/-- `re.search` for a token sequence. -/
def searchToks (ts : List Tok) (l : Chars) : Bool :=
  l.tails.any fun suf => (matchToks ts suf).isSome

/-- `re.search` for `A.*B`: `A` matches somewhere, and `B` matches later on
the same line (`.` does not cross newlines; the literals in `B` contain no
newline, so truncating at the next newline is faithful). -/
def searchToksGap (a b : List Tok) (l : Chars) : Bool :=
  l.tails.any fun suf =>
    match matchToks a suf with
    | none => false
    | some rest =>
      let line := rest.takeWhile (fun c => !(c == '\n'))
      line.tails.any fun s2 => (matchToks b s2).isSome

/-- `TriggerManager.add_trigger`: append, then stable-sort by priority
descending (CPython list.sort is stable). -/
def insertByDesc (key : α → ℤ) (x : α) : List α → List α
  | [] => [x]
  | y :: ys => if key x > key y then x :: y :: ys else y :: insertByDesc key x ys

/-- Stable descending sort: fold-left insertion keeps the original order of
equal keys, matching CPython's stable `list.sort(..., reverse=True)`. -/
def sortByDesc (key : α → ℤ) (l : List α) : List α :=
  l.foldl (fun acc x => insertByDesc key x acc) []

/-- The default triggers of `TriggerManager._init_default_triggers`, in
construction order, each with the embedded search of its regex. -/
def defaultTriggerList : List Trigger :=
  [ { name := "command_error".data, trigger_type := .error, priority := 10,
      cooldown_seconds := 1 },
    -- dangerous patterns, priority 9, cooldown 5
    { name := "dangerous_recursive_delete_from_root".data,
      trigger_type := .dangerous, priority := 9, cooldown_seconds := 5,
      patternMatch := some (searchToks
        [.lit "rm".data, .ws1, .lit "-rf".data, .ws1, .lit "/".data]) },
    { name := "dangerous_sudo_recursive_delete".data,
      trigger_type := .dangerous, priority := 9, cooldown_seconds := 5,
      patternMatch := some (searchToks
        [.lit "sudo".data, .ws1, .lit "rm".data, .ws1, .lit "-rf".data]) },
    { name := "dangerous_format_filesystem".data,
      trigger_type := .dangerous, priority := 9, cooldown_seconds := 5,
      patternMatch := some (searchToks [.lit "mkfs.".data]) },
    { name := "dangerous_direct_disk_write".data,
      trigger_type := .dangerous, priority := 9, cooldown_seconds := 5,
      patternMatch := some (searchToksGap [.lit "dd".data, .ws1, .lit "if=".data]
        [.lit "of=/dev/".data]) },
    { name := "dangerous_write_to_disk_device".data,
      trigger_type := .dangerous, priority := 9, cooldown_seconds := 5,
      patternMatch := some (searchToks
        [.lit ">".data, .ws0, .lit "/dev/sd".data, .cls1 Char.isAlpha]) },
    { name := "dangerous_dangerous_permissions_on_root".data,
      trigger_type := .dangerous, priority := 9, cooldown_seconds := 5,
      patternMatch := some (searchToks
        [.lit "chmod".data, .ws1, .lit "777".data, .ws1, .lit "/".data]) },
    -- error output patterns, priority 8, cooldown 2
    { name := "error_pattern_permission_denied_errors".data,
      trigger_type := .pattern, priority := 8, cooldown_seconds := 2,
      patternMatch := some (searchToks [.lit "permission denied".data]) },
    { name := "error_pattern_file_not_found_errors".data,
      trigger_type := .pattern, priority := 8, cooldown_seconds := 2,
      patternMatch := some (searchToks [.lit "no such file or directory".data]) },
    { name := "error_pattern_command_not_found_errors".data,
      trigger_type := .pattern, priority := 8, cooldown_seconds := 2,
      patternMatch := some (searchToks [.lit "command not found".data]) },
    { name := "error_pattern_network_connection_errors".data,
      trigger_type := .pattern, priority := 8, cooldown_seconds := 2,
      patternMatch := some (searchToks [.lit "connection refused".data]) },
    { name := "error_pattern_disk_space_errors".data,
      trigger_type := .pattern, priority := 8, cooldown_seconds := 2,
      patternMatch := some (searchToks [.lit "out of space".data]) },
    { name := "error_pattern_memory_allocation_errors".data,
      trigger_type := .pattern, priority := 8, cooldown_seconds := 2,
      patternMatch := some (searchToks [.lit "cannot allocate memory".data]) },
    { name := "error_pattern_segmentation_fault_errors".data,
      trigger_type := .pattern, priority := 8, cooldown_seconds := 2,
      patternMatch := some (searchToks [.lit "segmentation fault".data]) },
    { name := "error_pattern_process_killed".data,
      trigger_type := .pattern, priority := 8, cooldown_seconds := 2,
      patternMatch := some (searchToks [.lit "killed".data]) },
    -- git patterns, priority 6, cooldown 10
    { name := "git_git_merge_conflicts".data,
      trigger_type := .pattern, priority := 6, cooldown_seconds := 10,
      patternMatch := some (searchToks [.lit "merge conflict".data]) },
    { name := "git_not_in_git_repository".data,
      trigger_type := .pattern, priority := 6, cooldown_seconds := 10,
      patternMatch := some (searchToks [.lit "fatal: not a git repository".data]) },
    { name := "git_git_status_-_clean".data,
      trigger_type := .pattern, priority := 6, cooldown_seconds := 10,
      patternMatch := some (searchToks [.lit "nothing to commit".data]) },
    { name := "git_git_untracked_files".data,
      trigger_type := .pattern, priority := 6, cooldown_seconds := 10,
      patternMatch := some (searchToks [.lit "untracked files".data]) },
    { name := "git_git_unstaged_changes".data,
      trigger_type := .pattern, priority := 6, cooldown_seconds := 10,
      patternMatch := some (searchToks [.lit "changes not staged".data]) },
    -- package patterns, priority 7, cooldown 5
    { name := "package_package_not_found".data,
      trigger_type := .pattern, priority := 7, cooldown_seconds := 5,
      patternMatch := some (searchToks [.lit "package not found".data]) },
    { name := "package_dependency_issues".data,
      trigger_type := .pattern, priority := 7, cooldown_seconds := 5,
      patternMatch := some (searchToksGap [.lit "dependency".data]
        [.lit "not satisfied".data]) },
    { name := "package_npm_errors".data,
      trigger_type := .pattern, priority := 7, cooldown_seconds := 5,
      patternMatch := some (searchToks [.lit "npm err!".data]) },
    { name := "package_pip_errors".data,
      trigger_type := .pattern, priority := 7, cooldown_seconds := 5,
      patternMatch := some (searchToksGap [.lit "pip".data] [.lit "error".data]) },
    { name := "package_apt_package_not_found".data,
      trigger_type := .pattern, priority := 7, cooldown_seconds := 5,
      patternMatch := some (searchToks [.lit "e: unable to locate package".data]) },
    -- dev patterns, priority 7, cooldown 3
    { name := "dev_compilation_errors".data,
      trigger_type := .pattern, priority := 7, cooldown_seconds := 3,
      patternMatch := some (searchToks [.lit "compilation terminated".data]) },
    { name := "dev_build_failures".data,
      trigger_type := .pattern, priority := 7, cooldown_seconds := 3,
      patternMatch := some (searchToks [.lit "build failed".data]) },
    { name := "dev_test_failures".data,
      trigger_type := .pattern, priority := 7, cooldown_seconds := 3,
      patternMatch := some (searchToksGap [.lit "test".data] [.lit "failed".data]) },
    { name := "dev_syntax_errors".data,
      trigger_type := .pattern, priority := 7, cooldown_seconds := 3,
      patternMatch := some (searchToks [.lit "syntax error".data]) },
    { name := "dev_import_errors".data,
      trigger_type := .pattern, priority := 7, cooldown_seconds := 3,
      patternMatch := some (searchToksGap [.lit "import".data] [.lit "error".data]) },
    { name := "dev_module_not_found".data,
      trigger_type := .pattern, priority := 7, cooldown_seconds := 3,
      patternMatch := some (searchToks [.lit "module not found".data]) } ]

/-- One entry of `TriggerManager.trigger_history`. -/
structure TriggerLogEntry where
  timestamp : ℚ
  trigger_name : Chars
  trigger_type : TriggerType
  priority : ℤ
  command : Option Chars
  exit_code : Option ℤ

structure TriggerManager where
  triggers : List Trigger
  trigger_history : List TriggerLogEntry
  max_history : Nat := 100

/-- `TriggerManager.add_trigger`. -/
def TriggerManager.addTrigger (m : TriggerManager) (t : Trigger) : TriggerManager :=
  { m with triggers := sortByDesc (·.priority) (m.triggers ++ [t]) }

/-- `TriggerManager()` construction, running `_init_default_triggers`. -/
def initTriggerManager : TriggerManager :=
  defaultTriggerList.foldl TriggerManager.addTrigger
    { triggers := [], trigger_history := [] }

/-- `TriggerManager._log_trigger` (the callback lists stay empty here). -/
def TriggerManager.logTrigger (m : TriggerManager) (t : Trigger)
    (ctx : Option CommandContext) (now : ℚ) : TriggerManager :=
  let entry : TriggerLogEntry :=
    { timestamp := now, trigger_name := t.name, trigger_type := t.trigger_type,
      priority := t.priority, command := ctx.map (·.command),
      exit_code := ctx.map (·.exit_code) }
  let h := m.trigger_history ++ [entry]
  { m with trigger_history := if h.length > m.max_history then h.drop 1 else h }

/-- One phase of `evaluate_command`: the list comprehension selects
eligible triggers of one type from the current list, then the loop fires
each selected trigger that passes `extra` (the per-phase match test),
stamping `last_triggered` and logging, in list order.  Mutation of the
selected trigger objects is rendered by updating, in the manager's list,
exactly the triggers satisfying selection-and-`extra` (the selected set is
fixed before the loop, and firing does not change type or eligibility of
other phases' triggers). -/
def firePhase (m : TriggerManager) (ty : TriggerType) (extra : Trigger → Bool)
    (ctx : CommandContext) (now : ℚ) : List Trigger × TriggerManager :=
  let sel := fun t : Trigger =>
    t.trigger_type == ty && t.canTrigger now && extra t
  let fired := (m.triggers.filter sel).map (·.fire now)
  let m1 := { m with
    triggers := m.triggers.map fun t => if sel t then t.fire now else t }
  (fired, fired.foldl (fun acc t => acc.logTrigger t (some ctx) now) m1)

/-- `TriggerManager.evaluate_command`: error phase (on non-zero exit),
dangerous phase (on a dangerous classification, regex against the command),
pattern phase (regex against command+output+error), then a stable sort of
the fired list by priority descending. -/
def TriggerManager.evaluateCommand (m : TriggerManager) (ctx : CommandContext)
    (now : ℚ) : List Trigger × TriggerManager :=
  let (fired1, m1) :=
    if ctx.exit_code ≠ 0 then firePhase m .error (fun _ => true) ctx now
    else ([], m)
  let (fired2, m2) :=
    if ctx.command_type = .dangerous then
      firePhase m1 .dangerous (fun t => t.matchesText ctx.command) ctx now
    else ([], m1)
  let textToCheck := ctx.command ++ '\n' :: ctx.output ++ '\n' :: ctx.error
  let (fired3, m3) :=
    firePhase m2 .pattern (fun t => t.matchesText textToCheck) ctx now
  (sortByDesc (·.priority) (fired1 ++ fired2 ++ fired3), m3)

/-!
## SessionContext and ContextWindow (src/ai/context.py)

Only the fields that the embedded operations read or write are carried
(`environment_vars`, `active_processes`, `system_info` are initialized
empty and never touched by the code paths under study).
-/

structure GitStatus where
  branch : Chars
  status : Chars
  has_changes : Bool
  updated_at : ℚ
deriving DecidableEq

structure SessionContext where
  current_directory : Chars
  shell_type : Chars
  git_status : Option GitStatus := none
deriving DecidableEq

/-- `SessionContext.update_git_status`. -/
def SessionContext.updateGitStatus (s : SessionContext) (branch status : Chars)
    (has_changes : Bool) (now : ℚ) : SessionContext :=
  let g : GitStatus :=
    { branch := branch, status := status, has_changes := has_changes,
      updated_at := now }
  { s with git_status := some g }

structure ContextWindow where
  max_commands : Nat := 20
  max_tokens : Nat := 4000
  commands : List CommandContext := []          -- deque(maxlen=max_commands)
  session : SessionContext :=
    { current_directory := "/".data, shell_type := "bash".data }
  important_commands : List CommandContext := []

/-- `ContextWindow.add_command`: deque append (dropping the oldest past
`maxlen`), plus the important side list capped at 10. -/
def ContextWindow.addCommand (w : ContextWindow) (ctx : CommandContext) :
    ContextWindow :=
  let cs := w.commands ++ [ctx]
  let cs := if cs.length > w.max_commands then cs.drop 1 else cs
  let imp :=
    if ctx.relevance_score ≥ 8/10 then
      let i := w.important_commands ++ [ctx]
      if i.length > 10 then i.drop 1 else i
    else w.important_commands
  { w with commands := cs, important_commands := imp }

/-- Stable sort descending by a rational key (CPython's stable
`list.sort(key=..., reverse=True)`). -/
def insertByDescQ (key : α → ℚ) (x : α) : List α → List α
  | [] => [x]
  | y :: ys => if key x > key y then x :: y :: ys else y :: insertByDescQ key x ys

def sortByDescQ (key : α → ℚ) (l : List α) : List α :=
  l.foldl (fun acc x => insertByDescQ key x acc) []

/-- Stable sort ascending by a rational key (`list.sort(key=...)`). -/
def insertByAscQ (key : α → ℚ) (x : α) : List α → List α
  | [] => [x]
  | y :: ys => if key x < key y then x :: y :: ys else y :: insertByAscQ key x ys

def sortByAscQ (key : α → ℚ) (l : List α) : List α :=
  l.foldl (fun acc x => insertByAscQ key x acc) []

/-- The greedy token-budget selection of `get_relevant_context`: Python
breaks at the first command that does not fit. -/
def greedyTokens (maxT : Nat) : List CommandContext → Nat → List CommandContext
  | [], _ => []
  | c :: cs, cur =>
    let t := (c.command.length + c.output.length + c.error.length) / 4
    if cur + t ≤ maxT then c :: greedyTokens maxT cs (cur + t) else []

/-- `ContextWindow.get_relevant_context`.  Note `max_tokens or
self.max_tokens`: an explicit argument of 0 is falsy and also falls back to
the window default. -/
def ContextWindow.getRelevantContext (w : ContextWindow)
    (maxTokens : Option Nat) : List CommandContext :=
  let mt := match maxTokens with
    | some m => if m == 0 then w.max_tokens else m
    | none => w.max_tokens
  let allCommands := w.commands ++ w.important_commands
  let uniq := (allCommands.reverse.foldl
    (fun (acc : List CommandContext × List (Chars × ℚ)) cmd =>
      if acc.2.any (fun k => k.1 == cmd.command && decide (k.2 = cmd.timestamp)) then
        acc
      else (acc.1 ++ [cmd], acc.2 ++ [(cmd.command, cmd.timestamp)]))
    ([], [])).1
  let sorted := sortByDescQ (·.relevance_score) uniq
  sortByAscQ (·.timestamp) (greedyTokens mt sorted 0)

/-!
## ContextManager (src/src/termai/ai/context_manager.py)

The asyncio.Queue has no maxsize (unbounded); `process_command` guards the
put with a qsize check, so the put never suspends and the whole coroutine
runs atomically between suspension points.  Python dicts keyed by the
request id are association lists (insertion order, overwrite on existing
key).  `time.time()` calls within one atomically-run coroutine all return
the `now` passed in.
-/

/-- Python `int(q)` for the nonnegative instants used here (truncation
toward zero coincides with the floor). -/
def pyIntOfRat (q : ℚ) : ℤ := ⌊q⌋

structure AIAnalysisRequest where
  trigger : Trigger
  context : CommandContext
  session_context : SessionContext
  relevant_history : List CommandContext
  priority : ℤ
  timestamp : ℚ
  request_id : Chars

structure ContextManager where
  context_window : ContextWindow
  trigger_manager : TriggerManager
  analysis_queue : List AIAnalysisRequest := []
  active_requests : List (Chars × AIAnalysisRequest) := []
  stats_commands_processed : Nat := 0
  stats_triggers_fired : Nat := 0
  stats_analysis_requests : Nat := 0
  stats_context_compressions : Nat := 0
  max_queue_size : Nat := 50
  context_compression_threshold : ℚ := 8/10
  auto_cleanup_interval : ℚ := 300
  last_cleanup : ℚ

/-- `ContextManager(max_context_length)` constructed at wall-clock `now`. -/
def initContextManager (maxContextLength : Nat) (now : ℚ) : ContextManager :=
  { context_window := { max_tokens := maxContextLength },
    trigger_manager := initTriggerManager,
    last_cleanup := now }

/-- Association-list rendering of `dict[key] = value`. -/
def dictInsert (k : Chars) (v : AIAnalysisRequest) :
    List (Chars × AIAnalysisRequest) → List (Chars × AIAnalysisRequest)
  | [] => [(k, v)]
  | (k0, v0) :: rest =>
    if k0 == k then (k, v) :: rest else (k0, v0) :: dictInsert k v rest

/-- Literal (case-sensitive) global replacement, Python `str.replace`. -/
def replaceAllLit (pat rep : Chars) (l : Chars) : Chars :=
  reSub (fun _ s => (dropLit pat s).map fun _ => (rep, pat.length)) l

/-- Python `str.rstrip("/")`. -/
def rstripSlash (l : Chars) : Chars :=
  (l.reverse.dropWhile (fun c => c == '/')).reverse

/-- `ContextManager._update_session_context`: the `cd` and `git status`
branches. -/
def updateSessionCtx (w : ContextWindow) (ctx : CommandContext) (now : ℚ) :
    ContextWindow :=
  let s := w.session
  let s :=
    if startsWithLit "cd ".data (pyStrip ctx.command) && ctx.exit_code == 0 then
      let parts := pySplitWs (pyStrip ctx.command)
      match parts with
      | _ :: newDir :: _ =>
        if startsWithLit "/".data newDir then
          { s with current_directory := newDir }
        else if newDir == "..".data then
          let joined := List.intercalate ['/']
            ((splitCh '/' (rstripSlash s.current_directory)).dropLast)
          let parent := if joined.length == 0 then "/".data else joined
          { s with current_directory := parent }
        else s
      | _ => s
    else s
  let s :=
    if startsWithLit "git ".data ctx.command &&
        containsSub "status".data ctx.command then
      if ctx.exit_code == 0 then
        let st := (splitNl ctx.output).foldl
          (fun (acc : Chars × Bool) line =>
            if startsWithLit "On branch ".data line then
              (pyStrip (replaceAllLit "On branch ".data [] line), acc.2)
            else if containsSub "nothing to commit".data line then (acc.1, false)
            else if ["modified:".data, "new file:".data,
                "deleted:".data].any (fun k => containsSub k line) then
              (acc.1, true)
            else acc)
          ("main".data, false)
        s.updateGitStatus st.1
          (if st.2 then "modified".data else "clean".data) st.2 now
      else s
    else s
  { w with session := s }

/-- `ContextManager._should_compress_context`: summed text length, floor-
divided by 4, compared against `max_tokens * 0.8`. -/
def shouldCompressContext (m : ContextManager)
    (contextList : List CommandContext) : Bool :=
  let totalTokens : ℕ :=
    (contextList.foldl
      (fun acc c => acc + c.command.length + c.output.length + c.error.length)
      0) / 4
  decide ((totalTokens : ℚ) >
    (m.context_window.max_tokens : ℚ) * m.context_compression_threshold)

/-- `ContextManager._compress_context`.  `int(len * 0.7)` is rendered as
`len * 7 / 10`; binary-float rounding can differ from this on some lengths,
but no run in this development reaches the compression branch. -/
def compressContext (contextList : List CommandContext) :
    List CommandContext :=
  let sorted := sortByDescQ (·.relevance_score) contextList
  let keep := max 1 (sorted.length * 7 / 10)
  sortByAscQ (·.timestamp) (sorted.take keep)

/-- `ContextManager._create_analysis_request` at wall-clock `now`; returns
the request and the (possibly bumped) compression counter. -/
def createAnalysisRequest (m : ContextManager) (trigger : Trigger)
    (ctx : CommandContext) (now : ℚ) : AIAnalysisRequest × Nat :=
  let rh := m.context_window.getRelevantContext none
  let (rh, comps) :=
    if shouldCompressContext m rh then
      (compressContext rh, m.stats_context_compressions + 1)
    else (rh, m.stats_context_compressions)
  let rid := trigger.name ++ '_' :: (toString (pyIntOfRat (now * 1000))).data
  ({ trigger := trigger, context := ctx,
     session_context := m.context_window.session, relevant_history := rh,
     priority := trigger.priority, timestamp := now, request_id := rid },
   comps)

/-- `ContextManager._periodic_cleanup`. -/
def periodicCleanup (m : ContextManager) (now : ℚ) : ContextManager :=
  if now - m.last_cleanup > m.auto_cleanup_interval then
    let cutoff := now - 3600
    let tm := { m.trigger_manager with trigger_history := [] }
    { m with
      active_requests := m.active_requests.filter
        (fun kv => decide (kv.2.timestamp ≥ cutoff)),
      trigger_manager := tm,
      last_cleanup := now }
  else m

/-- `ContextManager.process_command` run atomically at wall-clock `now`:
classify, build and sanitize the record, publish to the window, update the
session, evaluate triggers; on a fire, build a request from the highest-
priority trigger and enqueue it only while the queue holds fewer than
`max_queue_size` requests (the drop path and the no-trigger path run the
periodic cleanup and yield `none`). -/
def processCommand (m : ContextManager) (command directory : Chars)
    (exit_code : ℤ) (output error : Chars) (duration : ℚ) (now : ℚ) :
    Option AIAnalysisRequest × ContextManager :=
  let ty := classifyCommand command
  let ctx0 := mkCommandContext now command directory now exit_code output error
    duration ty
  let ctx := filterCommandContext now ctx0
  let w1 := m.context_window.addCommand ctx
  let m := { m with
    context_window := w1,
    stats_commands_processed := m.stats_commands_processed + 1 }
  let m := { m with context_window := updateSessionCtx m.context_window ctx now }
  let (triggered, tm) := m.trigger_manager.evaluateCommand ctx now
  let m := { m with trigger_manager := tm }
  match triggered with
  | [] => (none, periodicCleanup m now)
  | t0 :: _ =>
    let m := { m with
      stats_triggers_fired := m.stats_triggers_fired + triggered.length }
    let (req, comps) := createAnalysisRequest m t0 ctx now
    let m := { m with stats_context_compressions := comps }
    if m.analysis_queue.length < m.max_queue_size then
      (some req,
       { m with
         analysis_queue := m.analysis_queue ++ [req],
         active_requests := dictInsert req.request_id req m.active_requests,
         stats_analysis_requests := m.stats_analysis_requests + 1 })
    else (none, periodicCleanup m now)

/-!
## RealtimeAnalyzer (src/src/termai/ai/realtime_analyzer.py)

The cache and `analyze_command_error` are embedded over an abstract
response type `R` (an `AIResponse` is an opaque payload here; value
identity in the model renders object identity, as responses are never
rebuilt).  `_create_cache_key` hashes
`f"{request_type}:" + ":".join(args)` with MD5; only equality of keys is
ever consumed, so the key is modelled by the hashed content itself (MD5 is
a function of it, so equal contents give equal digests; distinct contents
are assumed not to collide).  The model gateway `ollama_client.generate`
and the prompt produced by `PromptTemplate.error_analysis_prompt` are
collaborator parameters: the cache logic under study never inspects them.
`analyze_command_error` runs between its await points at one wall-clock
instant `now`; a `CallTrace` records the effects the claim speaks about.
-/

structure CachedResponse (R : Type) where
  response : R
  timestamp : ℚ
  hit_count : Nat
  ttl : ℚ

structure AnalyzerState (R : Type) where
  response_cache : List (Chars × CachedResponse R) := []
  hits : Nat := 0
  misses : Nat := 0
  evictions : Nat := 0
  last_request_time : ℚ := 0
  requests_processed : Nat := 0
  requests_failed : Nat := 0
  cache_ttl : ℚ := 300
  request_rate_limit : ℚ := 5

/-- Effects of one `analyze_command_error` call: gateway invocations,
entries into `_rate_limit` (its single-permit gate), sleeps inside it, and
acquisitions of `request_semaphore`. -/
structure CallTrace where
  gateway_calls : Nat
  rate_limiter_entries : Nat
  rate_sleeps : Nat
  semaphore_acquisitions : Nat
deriving DecidableEq, Repr

def CallTrace.none' : CallTrace :=
  { gateway_calls := 0, rate_limiter_entries := 0, rate_sleeps := 0,
    semaphore_acquisitions := 0 }

/-- `RealtimeAnalyzer._create_cache_key` (modulo the final MD5, see above). -/
def createCacheKey (requestType : Chars) (args : List Chars) : Chars :=
  requestType ++ ':' :: List.intercalate [':'] args

def cacheLookup (cache : List (Chars × CachedResponse R)) (key : Chars) :
    Option (CachedResponse R) :=
  match cache.find? (fun kv => kv.1 == key) with
  | some kv => some kv.2
  | none => none

def cacheErase (cache : List (Chars × CachedResponse R)) (key : Chars) :
    List (Chars × CachedResponse R) :=
  cache.filter (fun kv => !(kv.1 == key))

def cacheStore (cache : List (Chars × CachedResponse R)) (key : Chars)
    (v : CachedResponse R) : List (Chars × CachedResponse R) :=
  match cache with
  | [] => [(key, v)]
  | kv :: rest => if kv.1 == key then (key, v) :: rest
                  else kv :: cacheStore rest key v

/-- `RealtimeAnalyzer._get_cached_response` at wall-clock `now`: a missing
key counts a miss; an entry older than its TTL is evicted and counts a miss;
otherwise the hit count is bumped and the stored response returned. -/
def getCachedResponse (s : AnalyzerState R) (key : Chars) (now : ℚ) :
    Option R × AnalyzerState R :=
  match cacheLookup s.response_cache key with
  | none => (none, { s with misses := s.misses + 1 })
  | some cached =>
    if now - cached.timestamp > cached.ttl then
      (none, { s with response_cache := cacheErase s.response_cache key,
                      evictions := s.evictions + 1, misses := s.misses + 1 })
    else
      let bumped := { cached with hit_count := cached.hit_count + 1 }
      (some cached.response,
       { s with
         response_cache := cacheStore s.response_cache key bumped,
         hits := s.hits + 1 })

/-- `RealtimeAnalyzer._cache_response` at wall-clock `now`. -/
def cacheResponse (s : AnalyzerState R) (key : Chars) (response : R)
    (now : ℚ) : AnalyzerState R :=
  let entry : CachedResponse R :=
    { response := response, timestamp := now, hit_count := 0,
      ttl := s.cache_ttl }
  { s with response_cache := cacheStore s.response_cache key entry }

/-- `RealtimeAnalyzer._rate_limit` at wall-clock `now`: under the
single-permit gate, sleep out the remainder of the minimum inter-request
interval if needed, then stamp the last-request time.  Returns whether a
sleep happened. -/
def rateLimitStep (s : AnalyzerState R) (now : ℚ) : Bool × AnalyzerState R :=
  let minInterval := 1 / s.request_rate_limit
  let slept := decide (now - s.last_request_time < minInterval)
  (slept, { s with last_request_time := now })

/-- `RealtimeAnalyzer.analyze_command_error` run at wall-clock `now` with
gateway success: consult the cache and return a hit outright; on a miss
rate-limit, build the prompt (a collaborator value), and call the gateway
under the semaphore, caching the response and bumping the processed
counter. -/
def analyzeCommandError (s : AnalyzerState R) (gateway : Chars → R)
    (prompt : Chars) (command error_output : Chars) (context : Option Chars)
    (now : ℚ) : R × AnalyzerState R × CallTrace :=
  let key := createCacheKey "error".data [command, error_output,
    context.getD []]
  match getCachedResponse s key now with
  | (some cached, s1) => (cached, s1, CallTrace.none')
  | (none, s1) =>
    let (slept, s2) := rateLimitStep s1 now
    let response := gateway prompt
    let s3 := cacheResponse s2 key response now
    let s4 := { s3 with requests_processed := s3.requests_processed + 1 }
    (response, s4,
     { gateway_calls := 1, rate_limiter_entries := 1,
       rate_sleeps := if slept then 1 else 0, semaphore_acquisitions := 1 })

/-- The metric-dictionary keys of `RealtimeAnalyzer.__init__`
(source lines 61-67). -/
def analyzerMetricKeys : List String :=
  ["requests_processed", "requests_failed", "average_response_time",
   "cache_hit_rate", "active_requests"]

/-- The keys of `RealtimeAnalyzer.get_metrics` (the metrics dict merged
with cache stats and two gauges). -/
def analyzerGetMetricsKeys : List String :=
  analyzerMetricKeys ++ ["cache_stats", "active_requests", "cache_size"]

/-- The `cache_stats` keys of `RealtimeAnalyzer.__init__`. -/
def analyzerCacheStatKeys : List String := ["hits", "misses", "evictions"]

/-- The stats keys of `ContextManager.__init__`. -/
def contextManagerStatsKeys : List String :=
  ["commands_processed", "triggers_fired", "analysis_requests",
   "context_compressions"]

/-- The keys of `ContextManager.get_statistics` (stats merged with nested
dicts and gauges). -/
def contextManagerGetStatisticsKeys : List String :=
  contextManagerStatsKeys ++ ["context_window", "triggers", "queue_size",
    "active_requests"]

/-!
## OutputBuffer (src/terminal/buffer.py)

`append` receives the text already decoded (decoding valid UTF-8 with
errors="replace" is the identity on the character sequence, which is how
the round-trip claim quantifies over text).
-/

structure OutputBuffer where
  max_lines : Nat := 1000
  lines : List Chars := []
  current_line : Chars := []

/-- The `control_chars` class `[\x00-\x08\x0B-\x0C\x0E-\x1F\x7F]`. -/
def isCtrlCls (c : Char) : Bool :=
  let n := c.toNat
  n ≤ 8 || n == 0xB || n == 0xC || (0xE ≤ n && n ≤ 0x1F) || n == 0x7F

/-- `OutputBuffer._clean_line`: drop the control-class characters, then
`rstrip()`. -/
def cleanLine (line : Chars) : Chars :=
  let cleaned := line.filter (fun c => !isCtrlCls c)
  (cleaned.reverse.dropWhile isPySpace).reverse

/-- `OutputBuffer._add_line`: clean and push onto the deque
(maxlen-bounded). -/
def OutputBuffer.addLine (b : OutputBuffer) (line : Chars) : OutputBuffer :=
  let ls := b.lines ++ [cleanLine line]
  { b with lines := if ls.length > b.max_lines then ls.drop 1 else ls }

/-- One character of `OutputBuffer.append`: newline flushes, carriage
return discards the current line, backspace pops one character, tab pads
to the next multiple of 8, any other character is kept iff its code point
is at least 32 (the `or char in "\t\n"` disjunct is unreachable). -/
def OutputBuffer.putChar (b : OutputBuffer) (c : Char) : OutputBuffer :=
  if c == '\n' then { b.addLine b.current_line with current_line := [] }
  else if c == '\r' then { b with current_line := [] }
  else if c == '\x08' then { b with current_line := b.current_line.dropLast }
  else if c == '\t' then
    let spacesNeeded := 8 - b.current_line.length % 8
    { b with current_line := b.current_line ++ List.replicate spacesNeeded ' ' }
  else if c.toNat ≥ 32 then { b with current_line := b.current_line ++ [c] }
  else b

/-- `OutputBuffer.append` over a chunk of text. -/
def OutputBuffer.appendText (b : OutputBuffer) (text : Chars) : OutputBuffer :=
  text.foldl OutputBuffer.putChar b

/-- The matcher of the `ansi_escape` regex: an escape character followed by
either one byte in `0x40-0x5A, 0x5C-0x5F` (the class written at-to-Z,
backslash-to-underscore: every byte of `0x40-0x5F` except the bracket), or
a CSI: a bracket, a maximal parameter run in `0x30-0x3F`, a maximal
intermediate run in `0x20-0x2F`, and a final byte in `0x40-0x7E` (the
three classes are disjoint, so the greedy runs are forced). -/
def tryAnsi (_ : Option Char) (l : Chars) : Option (Chars × Nat) :=
  match l with
  | '\x1b' :: rest =>
    match rest with
    | '[' :: r2 =>
      let params := r2.takeWhile (fun c => 0x30 ≤ c.toNat && c.toNat ≤ 0x3F)
      let inter := (r2.drop params.length).takeWhile
        (fun c => 0x20 ≤ c.toNat && c.toNat ≤ 0x2F)
      match (r2.drop (params.length + inter.length)).head? with
      | some fin =>
        if 0x40 ≤ fin.toNat && fin.toNat ≤ 0x7E then
          some ([], 2 + params.length + inter.length + 1)
        else none
      | none => none
    | c :: _ =>
      if 0x40 ≤ c.toNat && c.toNat ≤ 0x5F && !(c == '[') then some ([], 2)
      else none
    | [] => none
  | _ => none

/-- `OutputBuffer.strip_ansi` / the per-line substitution of
`get_plain_text`. -/
def stripAnsi (l : Chars) : Chars := reSub tryAnsi l

/-- `OutputBuffer.get_lines(-1)` (all lines, plus a nonempty current one). -/
def OutputBuffer.getLinesAll (b : OutputBuffer) : List Chars :=
  if b.current_line.length == 0 then b.lines else b.lines ++ [b.current_line]

/-- `OutputBuffer.get_plain_text()` (count = -1). -/
def OutputBuffer.getPlainText (b : OutputBuffer) : Chars :=
  joinNl (b.getLinesAll.map stripAnsi)

/-- Feed `text` into a fresh buffer and read the plain text, the
`OutputBuffer.plain` of the round-trip property. -/
def bufferPlain (text : Chars) : Chars :=
  (OutputBuffer.appendText {} text).getPlainText

/-!
## The 60-command back-pressure scenario of C3

Sixty distinct failing commands (exit code 1, empty output), spaced one
second apart so the one-second cooldown of the default command_error rule
admits every one of them, against the default queue capacity of 50.  The
second component of the fold counts the submissions that produced no
queued request.
-/

def c3Command (i : Nat) : Chars := "false".data ++ (Nat.repr i).data

def c3Step (st : ContextManager × Nat) (i : Nat) : ContextManager × Nat :=
  let r := processCommand st.1 (c3Command i) "/".data 1 [] [] 0 (1001 + (i : ℚ))
  (r.2, st.2 + if r.1.isSome then 0 else 1)

def c3Run (n : Nat) : ContextManager × Nat :=
  (List.range n).foldl c3Step (initContextManager 4000 1000, 0)

/-- Queue length, commands processed, queued analysis requests, and
dropped submissions after the 60 commands. -/
def c3Summary : Nat × Nat × Nat × Nat :=
  ((c3Run 60).1.analysis_queue.length, (c3Run 60).1.stats_commands_processed,
   (c3Run 60).1.stats_analysis_requests, (c3Run 60).2)

/-- A placeholder request filling the queue for the C3 witness. -/
def c3DummyRequest : AIAnalysisRequest :=
  let tr : Trigger := { name := "x".data, trigger_type := .error, priority := 0 }
  let sc : SessionContext :=
    { current_directory := "/".data, shell_type := "bash".data }
  { trigger := tr, context := mkCommandContext 0 [] [] 0 0 [] [] 0 .other,
    session_context := sc, relevant_history := [], priority := 0,
    timestamp := 0, request_id := [] }

/-!
## Theorems for the claims
-/

/-- C1 counterexample.  A single enabled error rule with cooldown 0, and a
failing command evaluated twice within the same second (at 1000 and
1000.5): both evaluations fire the rule, so two fires are produced across
the two evaluations, refuting that exactly one fire is produced. -/
theorem c1_cooldown_counterexample :
    let rule : Trigger :=
      { name := "err".data, trigger_type := .error, priority := 10,
        cooldown_seconds := 0 }
    let m : TriggerManager := { triggers := [rule], trigger_history := [] }
    let ctx := mkCommandContext 1000 "false".data "/".data 1000 1 [] [] 0 .other
    let e1 := m.evaluateCommand ctx 1000
    let e2 := e1.2.evaluateCommand ctx (1000 + 1/2)
    e1.1.length = 1 ∧ e2.1.length = 1 ∧ ¬ (e1.1.length + e2.1.length = 1) := by
  refine ⟨by decide, by decide, by decide⟩

/-- Key lookup after a store finds the stored entry. -/
theorem cacheLookup_cacheStore (c : List (Chars × CachedResponse R))
    (k : Chars) (v : CachedResponse R) :
    cacheLookup (cacheStore c k v) k = some v := by
  induction c with
  | nil => simp [cacheStore, cacheLookup]
  | cons kv rest ih =>
    by_cases h : kv.1 == k
    · simp [cacheStore, cacheLookup, h]
    · simp only [cacheStore, h, if_false, Bool.false_eq_true]
      simpa [cacheLookup, List.find?, h] using ih

/-- C2.  After a successful error-analysis call at time t stores its
response, a second call with the same inputs at any t' with t' - t below
the TTL returns the stored response itself and performs no gateway call,
no rate-limiter entry or sleep, and no semaphore acquisition. -/
theorem c2_cache_hit_theorem {R : Type} (s : AnalyzerState R)
    (gateway : Chars → R) (prompt prompt' command error_output : Chars)
    (context : Option Chars) (t t' : ℚ)
    (hmiss : cacheLookup s.response_cache
      (createCacheKey "error".data [command, error_output, context.getD []]) = none)
    (hfresh : t' - t < s.cache_ttl) :
    let first := analyzeCommandError s gateway prompt command error_output
      context t
    let second := analyzeCommandError first.2.1 gateway prompt' command
      error_output context t'
    second.1 = first.1 ∧ second.2.2 = CallTrace.none' := by
  intro first second
  have hlook : cacheLookup first.2.1.response_cache
      (createCacheKey "error".data [command, error_output, context.getD []]) =
      some { response := gateway prompt, timestamp := t, hit_count := 0,
             ttl := s.cache_ttl } := by
    simp only [first, analyzeCommandError, getCachedResponse, hmiss,
      rateLimitStep, cacheResponse]
    exact cacheLookup_cacheStore _ _ _
  have httl : first.2.1.cache_ttl = s.cache_ttl := by
    simp only [first, analyzeCommandError, getCachedResponse, hmiss,
      rateLimitStep, cacheResponse]
  have hcond : ¬ (t' - t > s.cache_ttl) := by linarith
  constructor
  · show second.1 = first.1
    simp only [second, analyzeCommandError, getCachedResponse, hlook]
    rw [if_neg hcond]
    simp only [first, analyzeCommandError, getCachedResponse, hmiss,
      rateLimitStep, cacheResponse]
  · show second.2.2 = CallTrace.none'
    simp only [second, analyzeCommandError, getCachedResponse, hlook]
    rw [if_neg hcond]

/-- Witness for C2 at a concrete instance: a fresh analyzer, the gateway a
constant, first call at t = 0, second at t' = 100 with TTL 300. -/
theorem c2_cache_hit_witness :
    let s : AnalyzerState ℕ := {}
    let first := analyzeCommandError s (fun _ => 7) "p".data "ls".data
      "boom".data none 0
    let second := analyzeCommandError first.2.1 (fun _ => 7) "q".data
      "ls".data "boom".data none 100
    second.1 = first.1 ∧ second.2.2 = CallTrace.none' :=
  c2_cache_hit_theorem {} (fun _ => 7) "p".data "q".data "ls".data
    "boom".data none 0 100 (by rfl) (by norm_num)

/-- C4.  At the failing input ESC [ 3 1 m r e d, feeding the
ANSI-stripped text into the buffer yields plain text r e d, but feeding
the raw text yields [ 3 1 m r e d (append drops the ESC, so the CSI
payload survives as printable text and the plain-text read removes
nothing): the two sides of the claimed identity differ. -/
theorem c4_plain_strip_roundtrip_eval :
    bufferPlain (stripAnsi "\x1b[31mred".data) = "red".data ∧
    stripAnsi (bufferPlain "\x1b[31mred".data) = "[31mred".data ∧
    bufferPlain (stripAnsi "\x1b[31mred".data) ≠
      stripAnsi (bufferPlain "\x1b[31mred".data) := by
  refine ⟨by decide, by decide, by decide⟩

/-- C5 counterexample.  Sanitizing env output
SUPERCALIFRAGILISTICPASSWORD=x (a sensitive variable name of 28
alphanumerics) yields [API_KEY]=[FILTERED]: Stage 1 runs over the whole
output before the env filter, so the variable name is not preserved
verbatim as the claim states. -/
theorem c5_env_filter_counterexample :
    filterOutput "SUPERCALIFRAGILISTICPASSWORD=x".data "env".data =
      "[API_KEY]=[FILTERED]".data ∧
    filterOutput "SUPERCALIFRAGILISTICPASSWORD=x".data "env".data ≠
      "SUPERCALIFRAGILISTICPASSWORD=[FILTERED]".data := by
  refine ⟨by decide, by decide⟩

/-- On a manager holding a single enabled error-kind rule, an evaluation of
a failing command fires exactly that rule when its cooldown admits it, and
nothing otherwise. -/
theorem evalCommand_single_error_fst (m : TriggerManager) (t : Trigger)
    (hm : m.triggers = [t]) (ctx : CommandContext) (now : ℚ)
    (hty : t.trigger_type = .error) (hexit : ctx.exit_code ≠ 0) :
    (m.evaluateCommand ctx now).1 =
      if t.canTrigger now then [t.fire now] else [] := by
  have hbdang : (TriggerType.error == TriggerType.dangerous) = false := rfl
  have hbpat : (TriggerType.error == TriggerType.pattern) = false := rfl
  have hberr : (TriggerType.error == TriggerType.error) = true := rfl
  by_cases hc : t.canTrigger now = true
  · by_cases hd : ctx.command_type = .dangerous <;>
      simp [TriggerManager.evaluateCommand, firePhase, TriggerManager.logTrigger,
        hm, hty, hexit, hc, hd, hbdang, hbpat, hberr,
        Trigger.fire, sortByDesc, insertByDesc]
  · by_cases hd : ctx.command_type = .dangerous <;>
      simp [TriggerManager.evaluateCommand, firePhase, TriggerManager.logTrigger,
        hm, hty, hexit, hc, hd, hbdang, hbpat, hberr,
        Trigger.fire, sortByDesc, insertByDesc]

/-- Companion to the previous lemma: the state after the evaluation. -/
theorem evalCommand_single_error_snd (m : TriggerManager) (t : Trigger)
    (hm : m.triggers = [t]) (ctx : CommandContext) (now : ℚ)
    (hty : t.trigger_type = .error) (hexit : ctx.exit_code ≠ 0) :
    (m.evaluateCommand ctx now).2.triggers =
      if t.canTrigger now then [t.fire now] else [t] := by
  have hbdang : (TriggerType.error == TriggerType.dangerous) = false := rfl
  have hbpat : (TriggerType.error == TriggerType.pattern) = false := rfl
  have hberr : (TriggerType.error == TriggerType.error) = true := rfl
  by_cases hc : t.canTrigger now = true
  · by_cases hd : ctx.command_type = .dangerous <;>
      simp [TriggerManager.evaluateCommand, firePhase, TriggerManager.logTrigger,
        hm, hty, hexit, hc, hd, hbdang, hbpat, hberr, Trigger.fire]
  · by_cases hd : ctx.command_type = .dangerous <;>
      simp [TriggerManager.evaluateCommand, firePhase, TriggerManager.logTrigger,
        hm, hty, hexit, hc, hd, hbdang, hbpat, hberr, Trigger.fire]

/-- C1, amended.  For a single enabled error rule and a failing command:
with cooldown_seconds ≤ 0 the rule fires at every evaluation, so two
evaluations within the same second produce two fires, not one; with
cooldown_seconds ≥ 1, once the rule fires at time1, an evaluation at any
time2 less than one second later does not fire it again. -/
theorem c1_cooldown_amended (t0 t1 : Trigger) (ctx : CommandContext)
    (time1 time2 : ℚ)
    (h0e : t0.enabled = true) (h0ty : t0.trigger_type = .error)
    (h0c : t0.cooldown_seconds ≤ 0)
    (h1e : t1.enabled = true) (h1ty : t1.trigger_type = .error)
    (h1c : 1 ≤ t1.cooldown_seconds) (h1el : t1.canTrigger time1 = true)
    (hexit : ctx.exit_code ≠ 0) (hsame : time2 - time1 < 1) :
    (let m : TriggerManager := { triggers := [t0], trigger_history := [] }
     let e1 := m.evaluateCommand ctx time1
     let e2 := e1.2.evaluateCommand ctx time2
     e1.1.length = 1 ∧ e2.1.length = 1) ∧
    (let m : TriggerManager := { triggers := [t1], trigger_history := [] }
     let e1 := m.evaluateCommand ctx time1
     let e2 := e1.2.evaluateCommand ctx time2
     e1.1.length = 1 ∧ e2.1.length = 0) := by
  have hct0 : ∀ now : ℚ, t0.canTrigger now = true := by
    intro now
    simp [Trigger.canTrigger, h0e, h0c]
  have hct0f : ∀ now now' : ℚ, (t0.fire now).canTrigger now' = true := by
    intro now now'
    simp [Trigger.canTrigger, Trigger.fire, h0e, h0c]
  have hct1f : (t1.fire time1).canTrigger time2 = false := by
    have hnot : ¬ (t1.cooldown_seconds ≤ 0) := by omega
    have hlt : time2 - time1 < (t1.cooldown_seconds : ℚ) := by
      have : (1 : ℚ) ≤ (t1.cooldown_seconds : ℚ) := by exact_mod_cast h1c
      linarith
    simp [Trigger.canTrigger, Trigger.fire, h1e, hnot, not_le.mpr hlt]
  constructor
  · constructor
    · rw [evalCommand_single_error_fst _ t0 rfl ctx time1 h0ty hexit, if_pos (hct0 time1)]
      rfl
    · rw [evalCommand_single_error_fst _ (t0.fire time1)
        (evalCommand_single_error_snd _ t0 rfl ctx time1 h0ty hexit |>.trans
          (by rw [if_pos (hct0 time1)])) ctx time2 (by simpa [Trigger.fire] using h0ty)
        hexit, if_pos (hct0f time1 time2)]
      rfl
  · constructor
    · rw [evalCommand_single_error_fst _ t1 rfl ctx time1 h1ty hexit, if_pos h1el]
      rfl
    · rw [evalCommand_single_error_fst _ (t1.fire time1)
        (evalCommand_single_error_snd _ t1 rfl ctx time1 h1ty hexit |>.trans
          (by rw [if_pos h1el])) ctx time2 (by simpa [Trigger.fire] using h1ty)
        hexit, hct1f]
      rfl

attribute [local semireducible] Rat.add Rat.sub Rat.mul Rat.inv in
/-- Witness for C1 amended, at a cooldown-0 rule, a cooldown-1 rule, a
failing ls record, and the instants 1000 and 1000.5. -/
theorem c1_cooldown_amended_witness :
    let r0 : Trigger :=
      { name := "e0".data, trigger_type := .error, priority := 10,
        cooldown_seconds := 0 }
    let r1 : Trigger :=
      { name := "e1".data, trigger_type := .error, priority := 10,
        cooldown_seconds := 1 }
    let ctx := mkCommandContext 1000 "ls /x".data "/".data 1000 2 []
      "no such file".data 0 .navigation
    (let m : TriggerManager := { triggers := [r0], trigger_history := [] }
     let e1 := m.evaluateCommand ctx 1000
     let e2 := e1.2.evaluateCommand ctx (1000 + 1/2)
     e1.1.length = 1 ∧ e2.1.length = 1) ∧
    (let m : TriggerManager := { triggers := [r1], trigger_history := [] }
     let e1 := m.evaluateCommand ctx 1000
     let e2 := e1.2.evaluateCommand ctx (1000 + 1/2)
     e1.1.length = 1 ∧ e2.1.length = 0) := by
  refine c1_cooldown_amended _ _ _ 1000 (1000 + 1/2) rfl rfl (by decide) rfl rfl
    (by decide) (by decide) (by decide) (by decide)

/-- A newline-free string splits to itself. -/
theorem splitNl_no_newline (l : Chars) (h : ¬ '\n' ∈ l) : splitNl l = [l] := by
  induction l with
  | nil => rfl
  | cons c cs ih =>
    simp only [List.mem_cons, not_or] at h
    have hc : (c == '\n') = false := beq_eq_false_iff_ne.mpr (Ne.symm h.1)
    show splitCh '\n' (c :: cs) = [c :: cs]
    rw [splitCh, if_neg (by simp [hc]),
      show splitCh '\n' cs = splitNl cs from rfl, ih h.2]

/-- Splitting after a newline-free first line peels it off. -/
theorem splitNl_append (l rest : Chars) (h : ¬ '\n' ∈ l) :
    splitNl (l ++ '\n' :: rest) = l :: splitNl rest := by
  induction l with
  | nil => simp [splitNl, splitCh]
  | cons c cs ih =>
    simp only [List.mem_cons, not_or] at h
    have hc : (c == '\n') = false := beq_eq_false_iff_ne.mpr (Ne.symm h.1)
    show splitCh '\n' (c :: (cs ++ '\n' :: rest)) = (c :: cs) :: splitNl rest
    rw [splitCh, if_neg (by simp [hc])]
    have := ih h.2
    rw [show splitCh '\n' (cs ++ '\n' :: rest) = splitNl (cs ++ '\n' :: rest)
      from rfl, this]

/-- Python split on newline undoes a newline join of newline-free lines. -/
theorem splitNl_joinNl (L : List Chars) (hne : L ≠ [])
    (h : ∀ l ∈ L, ¬ '\n' ∈ l) : splitNl (joinNl L) = L := by
  induction L with
  | nil => exact absurd rfl hne
  | cons x xs ih =>
    cases xs with
    | nil => exact splitNl_no_newline x (h x (by simp))
    | cons y ys =>
      have hx : ¬ '\n' ∈ x := h x (by simp)
      have hrest : ∀ l ∈ y :: ys, ¬ '\n' ∈ l := fun l hl => h l (by simp [hl])
      show splitNl (x ++ '\n' :: joinNl (y :: ys)) = x :: y :: ys
      rw [splitNl_append x _ hx, ih (by simp) hrest]

/-- C5, amended.  For env-family commands the sanitizer applies Stage 1 to
the whole output first and only then the per-line env filter, on the
Stage-1-filtered text: every newline-free line of that intermediate text
containing an equals sign keeps its (post-Stage-1) name; the value becomes
[FILTERED] when that name contains a sensitive fragment, and otherwise
goes through Stage 1 once more; lines without an equals sign pass
unchanged; the result is truncated at 2000 characters. -/
theorem c5_env_filter_amended (L : List Chars) (hne : L ≠ [])
    (hnl : ∀ l ∈ L, ¬ '\n' ∈ l) (out command : Chars) (hout : out ≠ [])
    (hcmd : ∃ base rest, pySplitWs (pyStrip command) = base :: rest ∧
      ["env".data, "printenv".data, "set".data].contains base = true) :
    filterEnvOutput (joinNl L) = joinNl (L.map fun line =>
      if line.contains '=' then
        if envSensitiveNames.any (fun s => containsSub s
            (toUpperL (line.takeWhile (fun c => !(c == '='))))) then
          line.takeWhile (fun c => !(c == '=')) ++ "=[FILTERED]".data
        else
          line.takeWhile (fun c => !(c == '=')) ++ '=' ::
            filterText ((line.drop
              (line.takeWhile (fun c => !(c == '='))).length).drop 1)
      else line) ∧
    filterOutput out command =
      (if (filterEnvOutput (filterText out)).length > 2000 then
        (filterEnvOutput (filterText out)).take 2000 ++
          "\n[OUTPUT_TRUNCATED]".data
      else filterEnvOutput (filterText out)) := by
  constructor
  · show joinNl ((splitNl (joinNl L)).map _) = _
    rw [splitNl_joinNl L hne hnl]
  · obtain ⟨base, rest, hrest, hbase⟩ := hcmd
    have h0 : (out.length == 0) = false := by
      cases out with
      | nil => exact absurd rfl hout
      | cons c cs => rfl
    simp only [filterOutput, h0, hrest, hbase, Bool.false_eq_true, if_false,
      if_true]

/-- Witness for C5 amended, at the two-line env output PATH=/usr/bin,
MY_TOKEN=abc: the sensitive name keeps its name with value [FILTERED]; the
other line keeps its Stage-1-filtered value. -/
theorem c5_env_filter_amended_witness :
    let L := ["PATH=/usr/bin".data, "MY_TOKEN=abc".data]
    (filterEnvOutput (joinNl L) = joinNl (L.map fun line =>
      if line.contains '=' then
        if envSensitiveNames.any (fun s => containsSub s
            (toUpperL (line.takeWhile (fun c => !(c == '='))))) then
          line.takeWhile (fun c => !(c == '=')) ++ "=[FILTERED]".data
        else
          line.takeWhile (fun c => !(c == '=')) ++ '=' ::
            filterText ((line.drop
              (line.takeWhile (fun c => !(c == '='))).length).drop 1)
      else line) ∧
    filterOutput "MY_TOKEN=abc".data "env".data =
      (if (filterEnvOutput (filterText "MY_TOKEN=abc".data)).length > 2000 then
        (filterEnvOutput (filterText "MY_TOKEN=abc".data)).take 2000 ++
          "\n[OUTPUT_TRUNCATED]".data
      else filterEnvOutput (filterText "MY_TOKEN=abc".data))) ∧
    filterOutput "MY_TOKEN=abc".data "env".data = "MY_TOKEN=[FILTERED]".data := by
  refine ⟨c5_env_filter_amended _ (by decide) (by decide) _ _ (by decide)
    ⟨"env".data, [], by decide, by decide⟩, by decide⟩

attribute [local semireducible] Rat.add Rat.sub Rat.mul Rat.inv in
set_option maxRecDepth 200000 in
set_option maxHeartbeats 16000000 in
/-- Sixty failing commands against capacity 50: exactly 50 are queued and
10 dropped. -/
theorem c3Summary_eval : c3Summary = (50, 60, 50, 10) := by decide

theorem periodicCleanup_queue (m : ContextManager) (now : ℚ) :
    (periodicCleanup m now).analysis_queue = m.analysis_queue := by
  simp only [periodicCleanup]
  split <;> rfl

theorem periodicCleanup_requests (m : ContextManager) (now : ℚ) :
    (periodicCleanup m now).stats_analysis_requests =
      m.stats_analysis_requests := by
  simp only [periodicCleanup]
  split <;> rfl

/-- C3, amended.  When the analysis queue already holds at least
max_queue_size requests, processing any further command returns no
request, leaves the queue and the analysis_requests counter unchanged (the
drop; the producer never blocks, as the guarded put is the only queue
operation), and no metric of the code records the drop; in particular the
60-command scenario queues exactly 50 requests and drops 10. -/
theorem c3_queue_drop_amended :
    (∀ (m : ContextManager) (command directory : Chars) (exit_code : ℤ)
       (output error : Chars) (duration now : ℚ),
       m.analysis_queue.length ≥ m.max_queue_size →
       (processCommand m command directory exit_code output error duration
           now).1 = none ∧
       (processCommand m command directory exit_code output error duration
           now).2.analysis_queue = m.analysis_queue ∧
       (processCommand m command directory exit_code output error duration
           now).2.stats_analysis_requests = m.stats_analysis_requests) ∧
    c3Summary = (50, 60, 50, 10) := by
  refine ⟨?_, c3Summary_eval⟩
  intro m command directory exit_code output error duration now h
  simp only [processCommand]
  split
  · exact ⟨rfl, by simp [periodicCleanup_queue],
      by simp [periodicCleanup_requests]⟩
  · rw [if_neg (by simpa using Nat.not_lt.mpr h)]
    exact ⟨rfl, by simp [periodicCleanup_queue],
      by simp [periodicCleanup_requests]⟩

/-- Witness for C3 amended: a manager whose queue already holds 50
requests drops the next failing command's request. -/
theorem c3_queue_drop_amended_witness :
    let m0 := { initContextManager 4000 1000 with
      analysis_queue := List.replicate 50 c3DummyRequest }
    (processCommand m0 "false0".data "/".data 1 [] [] 0 1001).1 = none ∧
    (processCommand m0 "false0".data "/".data 1 [] [] 0
        1001).2.analysis_queue = m0.analysis_queue ∧
    (processCommand m0 "false0".data "/".data 1 [] [] 0
        1001).2.stats_analysis_requests = m0.stats_analysis_requests := by
  intro m0
  exact c3_queue_drop_amended.1 m0 "false0".data "/".data 1 [] [] 0 1001
    (by decide)

/-- C3 counterexample.  Drops do occur (10 of them in the 60-command
scenario), but no metric dictionary of the code has a queue_full entry: the
analyzer's metrics, its get_metrics view, its cache stats, and the context
manager's statistics all lack the key, so no queue_full counter is
incremented by one per drop as the claim states. -/
theorem c3_queue_full_metric_counterexample :
    c3Summary.2.2.2 = 10 ∧
    analyzerMetricKeys.contains "queue_full" = false ∧
    analyzerGetMetricsKeys.contains "queue_full" = false ∧
    analyzerCacheStatKeys.contains "queue_full" = false ∧
    contextManagerStatsKeys.contains "queue_full" = false ∧
    contextManagerGetStatisticsKeys.contains "queue_full" = false := by
  refine ⟨by rw [c3Summary_eval], by decide, by decide, by decide, by decide,
    by decide⟩

end Termai

